import Mathlib

/-!
Verification of the fastpay NFC terminal scripts.

Shallow embedding of the PN532 wire-frame codec, the card-emulation APDU
session loop (src/test/card-emulation-raw.py), the TLV-wrapped NDEF message
builder (src/test/write-ndef-formatted.py), and the tap-deduplication,
retry/backoff and hardware-initialization logic of the production reader
(src/terminal/scripts/nfc_reader.py).

Bytes are modelled as natural numbers with explicit reduction mod 256 where
the Python code masks with 0xFF; byte strings are lists of naturals;
timestamps are rationals (Python floats returned by time.monotonic).
-/

namespace FastPay

/-! ### PN532 frame codec, from send_command in src/test/card-emulation-raw.py -/

/-- Length checksum: Python `(~length + 1) & 0xFF`, i.e. the two's
complement of the length byte. -/
def lcsOf (length : Nat) : Nat := (256 - length % 256) % 256

/-- Data checksum: Python `(~(0xD4 + command_code + sum(params)) + 1) & 0xFF`. -/
def dcsOf (command_code : Nat) (params : List Nat) : Nat :=
  (256 - (0xD4 + command_code + params.sum) % 256) % 256

/-- The wire frame built by send_command (card-emulation-raw.py lines 27-44):
preamble 00 00 FF, length byte (TFI + command + params), length checksum,
TFI 0xD4, command code, parameter bytes, data checksum, postamble 00. -/
def send_command_frame (command_code : Nat) (params : List Nat) : List Nat :=
  let length := params.length + 2
  [0x00, 0x00, 0xFF] ++ [length, lcsOf length] ++ [0xD4, command_code]
    ++ params ++ [dcsOf command_code params, 0x00]

/-- The same frame shape with the two checksum bytes as free parameters, used
to state what decoding does on frames whose checksum bytes were corrupted. -/
def frameWith (command_code : Nat) (params : List Nat) (lcsB dcsB : Nat) : List Nat :=
  0x00 :: 0x00 :: 0xFF :: (params.length + 2) :: lcsB :: 0xD4 :: command_code
    :: (params ++ [dcsB, 0x00])

/-- The preamble scan loop of read_response (card-emulation-raw.py lines
57-64): read single bytes until a 0x00 is seen whose next two bytes are
00 FF; the two lookahead bytes are consumed even when they do not match.
Returns the remaining bytes after the preamble, or none when the stream is
exhausted first (the Python loop then hits its deadline and returns None). -/
def findPreamble : List Nat → Option (List Nat)
  | [] => none
  | b :: rest =>
    if b = 0x00 then
      match rest with
      | b1 :: b2 :: rest2 =>
        if b1 = 0x00 ∧ b2 = 0xFF then some rest2 else findPreamble rest2
      | _ => none
    else findPreamble rest

/-- The tail of read_response after the preamble was found: length byte,
length checksum, checksum test, bounded data read, strip TFI and DCS. -/
def decodeAfterPreamble : List Nat → Option (List Nat)
  | length :: lcs :: rest =>
    if (length + lcs) % 256 = 0 then
      let data := rest.take (length + 1)
      if data.length = length + 1 then some data.tail.dropLast else none
    else none
  | _ => none

/-- read_response (card-emulation-raw.py lines 53-86): scan for the preamble,
read the length byte and its checksum, require `(length + lcs) mod 256 = 0`,
read `length + 1` further bytes (TFI through DCS) failing when fewer are
available, and return those bytes with the leading TFI and the trailing DCS
stripped (Python `data[1:-1]`). The trailing data checksum byte is stripped
but never verified. -/
def read_response (bs : List Nat) : Option (List Nat) :=
  match findPreamble bs with
  | none => none
  | some rest => decodeAfterPreamble rest

/-! ### Card-emulation APDU session, from card-emulation-raw.py lines 215-258 -/

/-- One turn of the session loop body for a non-empty inbound byte string
(the value returned by tg_get_data). A leading 0x00 byte is stripped; when
at least two bytes remain, the second byte is taken as the APDU instruction:
0xA4 (SELECT) answers 90 00, 0xB0 (READ BINARY) answers the first 50 bytes
of the NDEF message followed by 90 00, anything else answers 6A 82. With
fewer than two bytes no response is produced and the session continues. -/
def handleCommand (ndef_msg : List Nat) (cmd : List Nat) : Option (List Nat) :=
  match cmd with
  | [] => none
  | c0 :: rest =>
    let cmd2 := if c0 = 0x00 then rest else c0 :: rest
    match cmd2 with
    | _cla :: ins :: _ =>
      if ins = 0xA4 then some [0x90, 0x00]
      else if ins = 0xB0 then some (ndef_msg.take 50 ++ [0x90, 0x00])
      else some [0x6A, 0x82]
    | _ => none

/-- The session_active loop: fold over the successive results of tg_get_data
(one list per call; the empty list models "no command", i.e. the phone
disconnected, which ends the session). Produces the list of responses sent
via tg_set_data, in order. There is no per-session state besides the command
counter: each response depends only on its own inbound bytes. -/
def runSession (ndef_msg : List Nat) : List (List Nat) → List (List Nat)
  | [] => []
  | cmd :: rest =>
    if cmd.isEmpty then []
    else
      match handleCommand ndef_msg cmd with
      | some resp => resp :: runSession ndef_msg rest
      | none => runSession ndef_msg rest

/-- create_ndef_text (card-emulation-raw.py lines 133-146): NDEF short text
record with header 0xD1, type length 1, payload length = text length + 3,
type 0x54, status byte 0x02 and language bytes en, then the text bytes. -/
def create_ndef_text (text : List Nat) : List Nat :=
  [0xD1, 0x01, text.length + 3, 0x54, 0x02] ++ [0x65, 0x6E] ++ text

/-! ### TLV-wrapped NDEF message, from src/test/write-ndef-formatted.py -/

/-- create_ndef_text_record (write-ndef-formatted.py lines 24-56): header
0xD1, type length (length of the type field, 1), payload length, type field
0x54, then the payload consisting of the language prefix 02 65 6E and the
text bytes. -/
def create_ndef_text_record (text : List Nat) : List Nat :=
  let type_field : List Nat := [0x54]
  let payload : List Nat := [0x02, 0x65, 0x6E] ++ text
  [0xD1, type_field.length, payload.length] ++ type_field ++ payload

/-- create_ndef_message (write-ndef-formatted.py lines 58-84): TLV type 0x03,
one length byte when the record is shorter than 255 bytes (otherwise the
extended marker 0xFF and a two-byte big-endian length), the record bytes,
and the terminator 0xFE. -/
def create_ndef_message (text : List Nat) : List Nat :=
  let ndef_record := create_ndef_text_record text
  let lenBytes : List Nat :=
    if ndef_record.length < 255 then [ndef_record.length]
    else [0xFF, ndef_record.length / 256 % 256, ndef_record.length % 256]
  (0x03 :: lenBytes) ++ ndef_record ++ [0xFE]

/-! ### Tap deduplication, from src/terminal/scripts/nfc_reader.py -/

/-- One entry of the recent_taps buffer: an identifier (the uppercase hex
rendering of the UID, modelled abstractly as a natural number, since only
equality of identifiers is used) and the monotonic timestamp at which the
tap was recorded. -/
structure TapRecord where
  uid : Nat
  time : Rat
deriving DecidableEq

/-- _is_duplicate_tap (nfc_reader.py lines 126-132): true when some retained
record has the same identifier and was recorded less than
debounce_ms / 1000 seconds before now. -/
def is_duplicate_tap (debounce_ms : Rat) (recent_taps : List TapRecord)
    (uid_hex : Nat) (now : Rat) : Bool :=
  recent_taps.any fun tap => tap.uid == uid_hex && decide (now - tap.time < debounce_ms / 1000)

/-- Appending to a collections.deque with maxlen cap: the buffer keeps the
last cap appended elements, evicting from the left (oldest first). -/
def dequeAppend (cap : Nat) (s : List TapRecord) (r : TapRecord) : List TapRecord :=
  let s2 := s ++ [r]
  s2.drop (s2.length - cap)

/-- _record_tap (nfc_reader.py lines 134-139): append the identifier with the
current monotonic time to the bounded deque. -/
def record_tap (cap : Nat) (recent_taps : List TapRecord) (uid_hex : Nat)
    (now : Rat) : List TapRecord :=
  dequeAppend cap recent_taps ⟨uid_hex, now⟩

/-- The tap-handling branch of _scan_loop (nfc_reader.py lines 225-237) for a
detected identifier: a duplicate is only logged (state unchanged, no event);
otherwise the tap is recorded and a tap event is emitted. Returns the new
buffer and whether a tap event was emitted. -/
def scanStep (debounce_ms : Rat) (cap : Nat) (recent_taps : List TapRecord)
    (uid_hex : Nat) (now : Rat) : List TapRecord × Bool :=
  if is_duplicate_tap debounce_ms recent_taps uid_hex now then (recent_taps, false)
  else (record_tap cap recent_taps uid_hex now, true)

/-- Iterated scanStep over a sequence of observed (identifier, time) pairs,
returning the final buffer and the per-observation emission flags. -/
def scanMany (debounce_ms : Rat) (cap : Nat) :
    List TapRecord → List (Nat × Rat) → List TapRecord × List Bool
  | s, [] => (s, [])
  | s, (uid, t) :: rest =>
    let p := scanStep debounce_ms cap s uid t
    let q := scanMany debounce_ms cap p.1 rest
    (q.1, p.2 :: q.2)

/-! ### Reconnect / retry state machine, from nfc_reader.py run and
_handle_retry -/

def MAX_RETRIES : Nat := 5

/-- Events observable on the IPC stream or as waits, as far as the retry
claims need them. -/
inductive RunEvent where
  | ready
  | errorEvent (fatal : Bool)
  | backoffWait (seconds : Nat)
deriving DecidableEq

/-- The mutable state of NFCReader used by run: retry_count,
shutdown_requested and fatal_exit. -/
structure RunState where
  retryCount : Nat
  shutdownRequested : Bool
  fatalExit : Bool
deriving DecidableEq

/-- _handle_retry (nfc_reader.py lines 162-186) given the current retry count
and whether the backoff sleep gets interrupted by a shutdown signal: emits a
non-fatal error event, increments the count, and either gives up with a
fatal error event at the ceiling, stops early when interrupted, or completes
the exponential backoff wait of 2 ^ retry_count seconds. Returns the new
count, the events produced, and whether the caller should retry. -/
def handle_retry (retryCount : Nat) (interrupted : Bool) :
    Nat × List RunEvent × Bool :=
  let r := retryCount + 1
  if MAX_RETRIES ≤ r then (r, [.errorEvent false, .errorEvent true], false)
  else if interrupted then (r, [.errorEvent false], false)
  else (r, [.errorEvent false, .backoffWait (2 ^ r)], true)

/-- The possible outcomes of one iteration of the connection/retry loop body
(nfc_reader.py lines 249-275): initialization fails recoverably or fatally,
or it succeeds (ready event, retry count reset to zero) and the scan loop
then ends by shutdown request or by raising a recoverable or fatal error.
The interrupted flag records whether a shutdown signal arrives during the
backoff sleep of the retry handler. -/
inductive IterOutcome where
  | initRecoverable (interrupted : Bool)
  | initFatal
  | scanShutdown
  | scanRecoverable (interrupted : Bool)
  | scanFatal
deriving DecidableEq

/-- One iteration of the body of the while loop in run, as a function of the
iteration outcome: the new state, the emitted events, and whether the loop
may continue (false models break). -/
def runStep (s : RunState) (o : IterOutcome) : RunState × List RunEvent × Bool :=
  match o with
  | .initRecoverable intr =>
    let h := handle_retry s.retryCount intr
    ({ s with retryCount := h.1, shutdownRequested := s.shutdownRequested || intr },
      h.2.1, h.2.2)
  | .initFatal => ({ s with fatalExit := true }, [.errorEvent true], false)
  | .scanShutdown =>
    ({ s with retryCount := 0, shutdownRequested := true }, [.ready], true)
  | .scanRecoverable intr =>
    let h := handle_retry 0 intr
    ({ s with retryCount := h.1, shutdownRequested := s.shutdownRequested || intr },
      .ready :: h.2.1, h.2.2)
  | .scanFatal => ({ s with retryCount := 0, fatalExit := true }, [.ready], false)

/-- The while loop of run (nfc_reader.py lines 249-275): iterate while
retry_count < MAX_RETRIES and no shutdown was requested, stopping early on
break. The trace lists the outcome of each executed iteration body. -/
def runLoop : RunState → List IterOutcome → RunState × List RunEvent
  | s, [] => (s, [])
  | s, o :: os =>
    if s.retryCount < MAX_RETRIES && !s.shutdownRequested then
      let p := runStep s o
      if p.2.2 then
        let q := runLoop p.1 os
        (q.1, p.2.1 ++ q.2)
      else (p.1, p.2.1)
    else (s, [])

/-- The state of NFCReader at the top of run, before the first iteration. -/
def initialRunState : RunState := ⟨0, false, false⟩

/-- The exit code computed at the end of run (nfc_reader.py line 281):
1 when fatal_exit is set or the retry ceiling was reached, else 0. -/
def exitCode (s : RunState) : Nat :=
  if s.fatalExit || decide (MAX_RETRIES ≤ s.retryCount) then 1 else 0

/-! ### Hardware initialization order, from _initialize_hardware
(nfc_reader.py lines 188-214) -/

/-- The externally visible steps of _initialize_hardware, in source order.
constructPN532 is the opaque construction of the external Adafruit driver
object. -/
inductive InitStep where
  | openSerial
  | setDtrLow
  | setRtsLow
  | sleepStabilize
  | constructPN532
  | samConfiguration
  | firmwareQuery
deriving DecidableEq

/-- The sequence of steps performed by _initialize_hardware: open the serial
port, drive DTR low, drive RTS low, sleep the stabilization delay, construct
the driver object, run SAM_configuration, then read firmware_version. -/
def initializeHardwareTrace : List InitStep :=
  [.openSerial, .setDtrLow, .setRtsLow, .sleepStabilize, .constructPN532,
    .samConfiguration, .firmwareQuery]

end FastPay

namespace FastPay

theorem send_command_frame_eq_frameWith (command_code : Nat) (params : List Nat) :
    send_command_frame command_code params =
      frameWith command_code params (lcsOf (params.length + 2)) (dcsOf command_code params) := by
  simp [send_command_frame, frameWith]

theorem findPreamble_cons (t : List Nat) :
    findPreamble (0x00 :: 0x00 :: 0xFF :: t) = some t := by
  simp [findPreamble]

theorem read_response_frameWith (command_code : Nat) (params : List Nat) (lcsB dcsB : Nat) :
    read_response (frameWith command_code params lcsB dcsB) =
      if (params.length + 2 + lcsB) % 256 = 0 then some (command_code :: params) else none := by
  have hsplit : (0xD4 : Nat) :: command_code :: (params ++ [dcsB, 0x00])
      = (0xD4 :: command_code :: (params ++ [dcsB])) ++ [0x00] := by simp
  have hlen : (0xD4 :: command_code :: (params ++ [dcsB])).length = params.length + 2 + 1 := by
    simp
  have h1 : read_response (frameWith command_code params lcsB dcsB)
      = decodeAfterPreamble ((params.length + 2) :: lcsB :: 0xD4 :: command_code
          :: (params ++ [dcsB, 0x00])) := by
    simp [read_response, frameWith, findPreamble_cons]
  have htake : List.take (params.length + 2 + 1)
        (0xD4 :: command_code :: (params ++ [dcsB, 0x00]))
      = 0xD4 :: command_code :: (params ++ [dcsB]) := by
    rw [hsplit, ← hlen]
    exact List.take_left _ _
  rw [h1]
  simp only [decodeAfterPreamble, htake]
  by_cases hc : (params.length + 2 + lcsB) % 256 = 0
  · rw [if_pos hc, if_pos hc]
    show (if (0xD4 :: command_code :: (params ++ [dcsB])).length = params.length + 2 + 1
      then some (0xD4 :: command_code :: (params ++ [dcsB])).tail.dropLast else none)
        = some (command_code :: params)
    rw [if_pos hlen]
    show some ((command_code :: params) ++ [dcsB]).dropLast = some (command_code :: params)
    rw [List.dropLast_concat]
  · rw [if_neg hc, if_neg hc]

/-- Claim C1: for every opcode byte and parameter byte sequence small enough
to fit the maximum frame payload, decoding the wire frame produced by
encoding that opcode and those parameters recovers exactly the original
payload bytes, the opcode byte followed by the parameter bytes, with
preamble, length, length checksum, direction byte, data checksum and
postamble stripped. -/
theorem frame_roundtrip (command_code : Nat) (params : List Nat)
    (hop : command_code < 256) (hparams : ∀ b ∈ params, b < 256)
    (hsize : params.length ≤ 253) :
    read_response (send_command_frame command_code params)
      = some (command_code :: params) := by
  rw [send_command_frame_eq_frameWith, read_response_frameWith, if_pos]
  unfold lcsOf
  omega

/-- Witness for frame_roundtrip at opcode 0x02 with parameters [1, 7]. -/
theorem frame_roundtrip_witness :
    (2 : Nat) < 256 ∧ (∀ b ∈ [(1 : Nat), 7], b < 256) ∧ ([(1 : Nat), 7].length ≤ 253) ∧
      read_response (send_command_frame 2 [1, 7]) = some [2, 1, 7] :=
  ⟨by decide, by decide, by decide, frame_roundtrip 2 [1, 7] (by decide) (by decide) (by decide)⟩

/-- Claim C2 counterexample: send_command_frame 2 [] is the well-formed frame
00 00 FF 02 FE D4 02 2A 00 whose data checksum byte is 0x2A; corrupting that
checksum byte to 0x2B still makes read_response return the payload [0x02]
instead of failing, because the trailing data checksum is never verified. -/
theorem checksum_corruption_cex :
    send_command_frame 2 [] = [0x00, 0x00, 0xFF, 0x02, 0xFE, 0xD4, 0x02, 0x2A, 0x00] ∧
      read_response [0x00, 0x00, 0xFF, 0x02, 0xFE, 0xD4, 0x02, 0x2B, 0x00] = some [0x02] ∧
      some [0x02] ≠ (none : Option (List Nat)) := by
  refine ⟨by decide, by decide, by decide⟩

/-- Claim C2 amended: corrupting the length-checksum byte of a well-formed
frame makes read_response fail with no payload, but the trailing data
checksum is never verified, so a frame with any data-checksum byte decodes
to the original payload. -/
theorem checksum_corruption_amended :
    (∀ (command_code : Nat) (params : List Nat) (lcsB : Nat),
        lcsB < 256 → lcsB ≠ lcsOf (params.length + 2) →
        read_response (frameWith command_code params lcsB (dcsOf command_code params))
          = none) ∧
    (∀ (command_code : Nat) (params : List Nat) (dcsB : Nat),
        read_response (frameWith command_code params (lcsOf (params.length + 2)) dcsB)
          = some (command_code :: params)) := by
  constructor
  · intro command_code params lcsB hlt hne
    rw [read_response_frameWith, if_neg]
    intro h
    apply hne
    unfold lcsOf
    omega
  · intro command_code params dcsB
    rw [read_response_frameWith, if_pos]
    unfold lcsOf
    omega

/-- Witness for checksum_corruption_amended: the frame for opcode 2 with no
parameters has length checksum 0xFE; replacing it by 0x63 makes decoding
fail, while replacing the data checksum byte by 0x4D leaves decoding
returning the payload. -/
theorem checksum_corruption_amended_witness :
    read_response (frameWith 2 [] 0x63 0x2A) = none ∧
      read_response (frameWith 2 [] 0xFE 0x4D) = some [2] :=
  ⟨checksum_corruption_amended.1 2 [] 0x63 (by decide) (by decide),
    checksum_corruption_amended.2 2 [] 0x4D⟩

/-- Claim C3 counterexample: for the APDU stream 00 A4 04 00 named by the
claim, the session answers 6A 82, not 90 00, because the leading 0x00 byte
is stripped as a presumed status byte and the dispatch then reads 0x04 at
the instruction position; and two successive READ BINARY commands receive
the identical first-50-bytes chunk of the NDEF string, so the served offset
does not advance. -/
theorem apdu_session_cex :
    handleCommand (List.range 60) [0x00, 0xA4, 0x04, 0x00] = some [0x6A, 0x82] ∧
      some [0x6A, 0x82] ≠ (some [0x90, 0x00] : Option (List Nat)) ∧
      runSession (List.range 60) [[0x00, 0x00, 0xB0, 0x00, 0x00], [0x00, 0x00, 0xB0, 0x00, 0x00]]
        = [List.range 50 ++ [0x90, 0x00], List.range 50 ++ [0x90, 0x00]] ∧
      List.range 50 ++ [0x90, 0x00] ≠ (List.range 60).drop 50 ++ [0x90, 0x00] := by
  refine ⟨by decide, by decide, by decide, by decide⟩

/-- Claim C3 amended: after stripping one leading 0x00 byte when present,
the session dispatches on the second remaining byte: 0xA4 answers 90 00,
0xB0 answers the first 50 bytes of the precomputed NDEF byte string followed
by 90 00 (the same chunk on every READ BINARY, no offset is tracked), and
any other value answers 6A 82; the session responses are a stateless map of
this handler over the inbound commands up to the first empty read. -/
theorem apdu_session_amended :
    (∀ (ndef_msg : List Nat) (c0 : Nat) (rest : List Nat) (cla ins : Nat) (tail2 : List Nat),
        (if c0 = 0x00 then rest else c0 :: rest) = cla :: ins :: tail2 →
        handleCommand ndef_msg (c0 :: rest) =
          (if ins = 0xA4 then some [0x90, 0x00]
            else if ins = 0xB0 then some (ndef_msg.take 50 ++ [0x90, 0x00])
            else some [0x6A, 0x82])) ∧
    (∀ (ndef_msg : List Nat) (cmds : List (List Nat)),
        runSession ndef_msg cmds =
          (cmds.takeWhile fun c => !c.isEmpty).filterMap (handleCommand ndef_msg)) := by
  constructor
  · intro ndef_msg c0 rest cla ins tail2 h
    by_cases hc0 : c0 = 0x00
    · rw [if_pos hc0] at h
      subst hc0 h
      simp [handleCommand]
    · rw [if_neg hc0] at h
      injection h with h1 h2
      subst h1 h2
      simp [handleCommand, hc0]
  · intro ndef_msg cmds
    induction cmds with
    | nil => rfl
    | cons c rest ih =>
      by_cases hc : c.isEmpty
      · simp [runSession, hc, List.takeWhile_cons]
      · rw [runSession, if_neg (by simp [hc])]
        cases hh : handleCommand ndef_msg c with
        | none => simp [List.takeWhile_cons, hc, hh, ih]
        | some resp => simp [List.takeWhile_cons, hc, hh, ih]

/-- Witness for apdu_session_amended: a command whose stripped second byte is
0xA4 is answered 90 00, and a one-command session produces exactly that
response. -/
theorem apdu_session_amended_witness :
    handleCommand [1, 2, 3] [0x00, 0x05, 0xA4, 0x00] = some [0x90, 0x00] ∧
      runSession [1, 2, 3] [[0x00, 0x05, 0xA4, 0x00]] = [[0x90, 0x00]] := by
  constructor
  · have h := apdu_session_amended.1 [1, 2, 3] 0x00 [0x05, 0xA4, 0x00] 0x05 0xA4 [0x00] (by decide)
    simpa using h
  · rw [apdu_session_amended.2]
    decide

/-- Claim C4 counterexample: for the two-byte text 68 69 the TLV-wrapped
NDEF message is 03 09 D1 01 05 54 02 65 6E 68 69 FE, of total length 12,
not text length + 8 = 10; and its payload-length byte is 5, which is the
TLV length byte 9 minus 4, not minus 3. -/
theorem ndef_tlv_cex :
    create_ndef_message [0x68, 0x69]
        = [0x03, 0x09, 0xD1, 0x01, 0x05, 0x54, 0x02, 0x65, 0x6E, 0x68, 0x69, 0xFE] ∧
      (create_ndef_message [0x68, 0x69]).length = 12 ∧ (12 : Nat) ≠ 2 + 8 ∧
      (0x05 : Nat) ≠ 0x09 - 3 := by
  refine ⟨by decide, by decide, by decide, by decide⟩

/-- Claim C4 amended: for a text payload of byte length L with L at most 247
(so that the record fits the short-form TLV length byte), the TLV-wrapped
NDEF message has total length L + 10 and begins
03 (L+7) D1 01 (L+3) 54 02 65 6E, the payload-length byte being the TLV
length byte minus 4. -/
theorem ndef_tlv_amended (text : List Nat) (hsize : text.length ≤ 247) :
    (create_ndef_message text).length = text.length + 10 ∧
      (create_ndef_message text).take 9 =
        [0x03, text.length + 7, 0xD1, 0x01, text.length + 3, 0x54, 0x02, 0x65, 0x6E] := by
  have hrec : create_ndef_text_record text
      = [0xD1, 0x01, text.length + 3, 0x54, 0x02, 0x65, 0x6E] ++ text := by
    simp [create_ndef_text_record]
  have hreclen : (create_ndef_text_record text).length = text.length + 7 := by
    rw [hrec]; simp
  have hmsg : create_ndef_message text
      = [0x03, text.length + 7, 0xD1, 0x01, text.length + 3, 0x54, 0x02, 0x65, 0x6E]
          ++ (text ++ [0xFE]) := by
    simp only [create_ndef_message]
    rw [hreclen, if_pos (by omega : text.length + 7 < 255), hrec]
    simp
  constructor
  · rw [hmsg]; simp
  · rw [hmsg]
    exact List.take_left' (by simp)

/-- Witness for ndef_tlv_amended at the one-byte text 68. -/
theorem ndef_tlv_amended_witness :
    ([(0x68 : Nat)].length ≤ 247) ∧
      (create_ndef_message [0x68]).length = 11 ∧
      (create_ndef_message [0x68]).take 9 = [0x03, 8, 0xD1, 0x01, 4, 0x54, 0x02, 0x65, 0x6E] := by
  have h := ndef_tlv_amended [0x68] (by decide)
  exact ⟨by decide, by simpa using h.1, by simpa using h.2⟩

theorem is_duplicate_tap_iff (debounce_ms : Rat) (taps : List TapRecord)
    (uid : Nat) (now : Rat) :
    is_duplicate_tap debounce_ms taps uid now = true ↔
      ∃ r ∈ taps, r.uid = uid ∧ now - r.time < debounce_ms / 1000 := by
  simp [is_duplicate_tap, List.any_eq_true]

/-- Claim C5: duplicate detection holds iff some retained record has the
same identifier and was observed less than the debounce window ago; for an
identifier observed twice with the second observation strictly inside the
window, only the first observation emits a tap event, and an observation of
the same identifier at or after the end of the window emits again. -/
theorem tap_debounce :
    (∀ (debounce_ms : Rat) (taps : List TapRecord) (uid : Nat) (now : Rat),
        is_duplicate_tap debounce_ms taps uid now = true ↔
          ∃ r ∈ taps, r.uid = uid ∧ now - r.time < debounce_ms / 1000) ∧
    (∀ (debounce_ms : Rat) (cap : Nat) (uid : Nat) (t1 t2 t3 : Rat),
        0 < cap → t2 - t1 < debounce_ms / 1000 → ¬(t3 - t1 < debounce_ms / 1000) →
        (scanMany debounce_ms cap [] [(uid, t1), (uid, t2), (uid, t3)]).2
          = [true, false, true]) := by
  constructor
  · exact is_duplicate_tap_iff
  · intro W cap uid t1 t2 t3 hcap h2 h3
    have h0 : is_duplicate_tap W [] uid t1 = false := by simp [is_duplicate_tap]
    have hrec : record_tap cap [] uid t1 = [⟨uid, t1⟩] := by
      simp [record_tap, dequeAppend, Nat.sub_eq_zero_of_le hcap]
    have hd2 : is_duplicate_tap W [⟨uid, t1⟩] uid t2 = true := by
      simp [is_duplicate_tap, h2]
    have hd3 : is_duplicate_tap W [⟨uid, t1⟩] uid t3 = false := by
      simp [is_duplicate_tap, h3]
    simp [scanMany, scanStep, h0, hrec, hd2, hd3]

/-- Witness for tap_debounce: identifier 7 at times 0, 1/2 and 2 with a
1000 ms window and capacity 10 produces events exactly at the first and
third observations. -/
theorem tap_debounce_witness :
    (0 : Nat) < 10 ∧ ((1 : Rat) / 2 - 0 < 1000 / 1000) ∧
      ¬((2 : Rat) - 0 < 1000 / 1000) ∧
      (scanMany 1000 10 [] [(7, 0), (7, 1 / 2), (7, 2)]).2 = [true, false, true] :=
  ⟨by decide, by norm_num, by norm_num,
    tap_debounce.2 1000 10 7 0 (1 / 2) 2 (by decide) (by norm_num) (by norm_num)⟩

theorem dequeAppend_length (cap : Nat) (s : List TapRecord) (r : TapRecord) :
    (dequeAppend cap s r).length = min (s.length + 1) cap := by
  simp [dequeAppend]
  omega

theorem fold_record_tap_length_le (cap : Nat) (ops : List (Nat × Rat)) :
    ∀ s : List TapRecord, s.length ≤ cap →
      (ops.foldl (fun t p => record_tap cap t p.1 p.2) s).length ≤ cap := by
  induction ops with
  | nil => intro s h; simpa using h
  | cons p rest ih =>
    intro s h
    simp only [List.foldl_cons]
    apply ih
    rw [record_tap, dequeAppend_length]
    omega

/-- Claim C6: every sequence of record operations starting from the empty
buffer leaves the deduplication buffer holding at most its configured
capacity of records, and recording a tap when the buffer is at capacity
evicts the oldest retained record first. -/
theorem dedup_capacity :
    (∀ (cap : Nat) (ops : List (Nat × Rat)),
        (ops.foldl (fun s p => record_tap cap s p.1 p.2) ([] : List TapRecord)).length
          ≤ cap) ∧
    (∀ (cap : Nat) (s : List TapRecord) (r : TapRecord),
        s.length = cap → 0 < cap → dequeAppend cap s r = s.tail ++ [r]) := by
  constructor
  · intro cap ops
    exact fold_record_tap_length_le cap ops [] (by simp)
  · intro cap s r hlen hcap
    show List.drop ((s ++ [r]).length - cap) (s ++ [r]) = s.tail ++ [r]
    rw [show (s ++ [r]).length - cap = 1 by simp; omega]
    rw [List.drop_append_of_le_length (by omega), List.drop_one]

/-- Witness for dedup_capacity: with capacity 2, recording three taps keeps
two records, and appending to a full buffer drops its head. -/
theorem dedup_capacity_witness :
    (([((7 : Nat), (0 : Rat)), (8, 1), (9, 2)].foldl
        (fun s p => record_tap 2 s p.1 p.2) ([] : List TapRecord)).length ≤ 2) ∧
      dequeAppend 2 [⟨1, 0⟩, ⟨2, 1⟩] ⟨3, 2⟩ = [⟨2, 1⟩, ⟨3, 2⟩] :=
  ⟨dedup_capacity.1 2 [(7, 0), (8, 1), (9, 2)],
    dedup_capacity.2 2 [⟨1, 0⟩, ⟨2, 1⟩] ⟨3, 2⟩ (by decide) (by decide)⟩

/-- Claim C7: the backoff wait before retry attempt n is exactly 2 ^ n
seconds, with no cap other than the retry ceiling, and a successful
connection resets the retry counter to exactly zero. -/
theorem backoff_policy :
    (∀ r : Nat, r + 1 < MAX_RETRIES →
        handle_retry r false =
          (r + 1, [RunEvent.errorEvent false, RunEvent.backoffWait (2 ^ (r + 1))], true)) ∧
    (∀ s : RunState, (runStep s .scanShutdown).1.retryCount = 0) := by
  constructor
  · intro r h
    simp [handle_retry, show ¬(MAX_RETRIES ≤ r + 1) from by omega]
  · intro s
    rfl

/-- Witness for backoff_policy: the second retry attempt waits 4 seconds. -/
theorem backoff_policy_witness :
    (1 : Nat) + 1 < MAX_RETRIES ∧
      handle_retry 1 false = (2, [RunEvent.errorEvent false, RunEvent.backoffWait 4], true) :=
  ⟨by decide, backoff_policy.1 1 (by decide)⟩

/-- Claim C8: after exactly MAX_RETRIES consecutive recoverable failures
with no intervening successful connection the loop stops having emitted a
final fatal error event and the process exit code is 1; a shutdown-initiated
stop before the ceiling, whether during a scan or during a backoff sleep,
exits with code 0. -/
theorem retry_ceiling :
    exitCode (runLoop initialRunState (List.replicate 5 (.initRecoverable false))).1 = 1 ∧
      (runLoop initialRunState (List.replicate 5 (.initRecoverable false))).2.getLast?
        = some (RunEvent.errorEvent true) ∧
      (∀ k : Nat, k < 5 →
        exitCode (runLoop initialRunState
          (List.replicate k (.initRecoverable false) ++ [IterOutcome.scanShutdown])).1 = 0) ∧
      (∀ k : Nat, k < 4 →
        exitCode (runLoop initialRunState
          (List.replicate k (.initRecoverable false)
            ++ [IterOutcome.initRecoverable true])).1 = 0) := by
  refine ⟨by decide, by decide, by decide, by decide⟩

/-- Witness for retry_ceiling: a shutdown after two recoverable failures
exits with code 0. -/
theorem retry_ceiling_witness :
    (2 : Nat) < 5 ∧
      exitCode (runLoop initialRunState
        (List.replicate 2 (.initRecoverable false) ++ [IterOutcome.scanShutdown])).1 = 0 :=
  ⟨by decide, retry_ceiling.2.2.1 2 (by decide)⟩

/-- Claim C9 counterexample: in the hardware initialization trace the SAM
configuration is performed at position 5 and the firmware-version query at
position 6, so the firmware query does not precede SAM configuration as the
claim states. -/
theorem init_order_cex :
    initializeHardwareTrace.indexOf InitStep.samConfiguration = 5 ∧
      initializeHardwareTrace.indexOf InitStep.firmwareQuery = 6 ∧
      ¬(initializeHardwareTrace.indexOf InitStep.firmwareQuery
          < initializeHardwareTrace.indexOf InitStep.samConfiguration) := by
  refine ⟨by decide, by decide, by decide⟩

/-- Claim C9 amended: hardware initialization asserts both serial control
lines low, then waits the stabilization delay, then performs SAM
configuration, and only then the firmware-version query. -/
theorem init_order_amended :
    initializeHardwareTrace.indexOf InitStep.setDtrLow
        < initializeHardwareTrace.indexOf InitStep.sleepStabilize ∧
      initializeHardwareTrace.indexOf InitStep.setRtsLow
        < initializeHardwareTrace.indexOf InitStep.sleepStabilize ∧
      initializeHardwareTrace.indexOf InitStep.sleepStabilize
        < initializeHardwareTrace.indexOf InitStep.samConfiguration ∧
      initializeHardwareTrace.indexOf InitStep.samConfiguration
        < initializeHardwareTrace.indexOf InitStep.firmwareQuery := by
  refine ⟨by decide, by decide, by decide, by decide⟩

theorem scanMany_append (W : Rat) (cap : Nat) (s : List TapRecord)
    (l1 l2 : List (Nat × Rat)) :
    scanMany W cap s (l1 ++ l2) =
      ((scanMany W cap (scanMany W cap s l1).1 l2).1,
        (scanMany W cap s l1).2 ++ (scanMany W cap (scanMany W cap s l1).1 l2).2) := by
  induction l1 generalizing s with
  | nil => simp [scanMany]
  | cons p rest ih =>
    obtain ⟨uid, t⟩ := p
    simp [scanMany, ih]

theorem scanMany_suppressed (W : Rat) (cap : Nat) (uid : Nat) (t0 : Rat)
    (ts : List Rat) (h : ∀ t ∈ ts, t - t0 < W / 1000) :
    scanMany W cap [⟨uid, t0⟩] (ts.map fun t => (uid, t))
      = ([⟨uid, t0⟩], List.replicate ts.length false) := by
  induction ts with
  | nil => simp [scanMany]
  | cons t rest ih =>
    have hd : is_duplicate_tap W [⟨uid, t0⟩] uid t = true := by
      simp [is_duplicate_tap]
      exact h t (by simp)
    have ih2 := ih fun x hx => h x (by simp [hx])
    simp [scanMany, scanStep, hd, ih2, List.replicate_succ]

/-- Claim C10: a tap suppressed as a duplicate is never added to the
deduplication buffer, so the window is measured from the last recorded tap;
an identifier re-observed continuously is emitted once per debounce window:
after the first recorded tap every observation inside the window is
suppressed and leaves the buffer unchanged, and the first observation at or
past the end of the window emits again. -/
theorem suppressed_not_recorded :
    (∀ (debounce_ms : Rat) (cap : Nat) (s : List TapRecord) (uid : Nat) (now : Rat),
        is_duplicate_tap debounce_ms s uid now = true →
        scanStep debounce_ms cap s uid now = (s, false)) ∧
    (∀ (debounce_ms : Rat) (cap : Nat) (uid : Nat) (t0 tlast : Rat) (ts : List Rat),
        0 < cap → (∀ t ∈ ts, t - t0 < debounce_ms / 1000) →
        ¬(tlast - t0 < debounce_ms / 1000) →
        (scanMany debounce_ms cap []
            ((uid, t0) :: ((ts.map fun t => (uid, t)) ++ [(uid, tlast)]))).2
          = true :: (List.replicate ts.length false ++ [true])) := by
  constructor
  · intro W cap s uid now h
    simp [scanStep, h]
  · intro W cap uid t0 tlast ts hcap hts hlast
    have h0 : is_duplicate_tap W [] uid t0 = false := by simp [is_duplicate_tap]
    have hrec : record_tap cap [] uid t0 = [⟨uid, t0⟩] := by
      simp [record_tap, dequeAppend, Nat.sub_eq_zero_of_le hcap]
    have hd : is_duplicate_tap W [⟨uid, t0⟩] uid tlast = false := by
      simp [is_duplicate_tap, hlast]
    simp only [scanMany, scanStep, h0, Bool.false_eq_true, if_neg, hrec, ite_false]
    rw [scanMany_append, scanMany_suppressed W cap uid t0 ts hts]
    simp [scanMany, scanStep, hd]

/-- Witness for suppressed_not_recorded: identifier 7 recorded at time 0,
re-observed at 1/4, 1/2 and 3/4 without events, emits again at time 1 with
a 1000 ms window. -/
theorem suppressed_not_recorded_witness :
    (scanMany 1000 10 []
        ((7, 0) :: (([(1 : Rat) / 4, 1 / 2, 3 / 4].map fun t => (7, t)) ++ [(7, 1)]))).2
      = true :: (List.replicate 3 false ++ [true]) :=
  suppressed_not_recorded.2 1000 10 7 0 1 [1 / 4, 1 / 2, 3 / 4] (by decide)
    (by intro t ht; fin_cases ht <;> norm_num) (by norm_num)

end FastPay
